import Mathlib

/-!
# Verification of the Java entry-point discovery core

A shallow embedding, in Lean 4, of the two core modules of the
`java-test-generator` repository:

* `src/ast_parser/java_ast_parser.py` — entry-point classification and
  extraction over javalang parse trees (class `JavaASTParser`);
* `src/ast_parser/model_schema_extractor.py` — DTO/model schema resolution
  (class `ModelSchemaExtractor`).

The embedding mirrors the Python functions one-for-one.  javalang AST nodes
are modelled as Lean inductives that record exactly the attributes the Python
code inspects (`isinstance` / `hasattr` checks are translated through small
total functions over those inductives, whose doc comments state which
javalang node classes carry which attributes).  Python's `Optional` becomes
`Option`, dict-shaped records become structures with `Option` fields,
exceptions are impossible by construction (every resolver is a total
function), and the one piece of mutable state — the model-schema cache —
becomes explicit state passing.
-/

set_option maxHeartbeats 1000000

namespace JavaTestGen

/-! ## Python string primitives

The Python code uses `str.strip('"')`, `str.replace('//', '/')`,
`", ".join(...)`, `s.split('.')[-1]`, `needle in haystack` and
`str.startswith('/')`.  Each is embedded as a structurally recursive
function on character lists so that every concrete evaluation reduces in
the kernel.
-/

/-- Python `s.strip('"')`: drop every leading and trailing `"` character. -/
def strip_quotes (s : String) : String :=
  (((s.toList.dropWhile (· = '"')).reverse.dropWhile (· = '"')).reverse).asString

/-- Python `", ".join(xs)`. -/
def join_comma (xs : List String) : String :=
  String.intercalate ", " xs

/-- One left-to-right, non-overlapping pass of Python
`s.replace('//', '/')` over the characters of `s`. -/
def replace_double_slash_aux : List Char → List Char
  | [] => []
  | '/' :: '/' :: rest => '/' :: replace_double_slash_aux rest
  | c :: rest => c :: replace_double_slash_aux rest

/-- Python `s.replace('//', '/')`. -/
def replace_double_slash (s : String) : String :=
  (replace_double_slash_aux s.toList).asString

/-- Python `s.startswith('/')`. -/
def starts_with_slash (s : String) : Bool :=
  match s.toList with
  | '/' :: _ => true
  | _ => false

/-- Helper for `last_segment`: the characters after the last `.`. -/
def last_segment_aux : List Char → List Char → List Char
  | [], acc => acc.reverse
  | '.' :: rest, _ => last_segment_aux rest []
  | c :: rest, acc => last_segment_aux rest (c :: acc)

/-- Python `s.split('.')[-1]`: the substring after the last dot
(`"com.a.Order" ↦ "Order"`, `"Order" ↦ "Order"`). -/
def last_segment (s : String) : String :=
  (last_segment_aux s.toList []).asString

/-- Boolean list-prefix test on characters. -/
def chars_start_with : List Char → List Char → Bool
  | [], _ => true
  | _ :: _, [] => false
  | a :: as, b :: bs => a = b && chars_start_with as bs

/-- Boolean substring occurrence test on characters. -/
def chars_contain (needle : List Char) : List Char → Bool
  | [] => chars_start_with needle []
  | c :: rest => chars_start_with needle (c :: rest) || chars_contain needle rest

/-- Python `needle in haystack` on strings. -/
def py_in (needle haystack : String) : Bool :=
  chars_contain needle.toList haystack.toList

/-- Python `re.findall(r"'([^']+)'", s)` as a character scan.  The second
argument is `none` while outside a quoted region and `some acc` (reversed
accumulated characters) while inside one; a quote closing a nonempty
region emits it, a quote met immediately after an opening quote re-opens
at the new position (which is exactly where the regex engine, failing
`[^']+` on an empty region, restarts). -/
def find_quoted : List Char → Option (List Char) → List String
  | [], _ => []
  | '\'' :: rest, Option.none => find_quoted rest (some [])
  | '\'' :: rest, some [] => find_quoted rest (some [])
  | '\'' :: rest, some (c :: acc) => (c :: acc).reverse.asString :: find_quoted rest Option.none
  | _ :: rest, Option.none => find_quoted rest Option.none
  | c :: rest, some acc => find_quoted rest (some (c :: acc))

/-- `re.findall(r"'([^']+)'", s)`: every non-overlapping, nonempty
single-quoted substring of `s`, left to right.  Used by the security
resolver to pull role names out of `hasRole('ADMIN')`-style expressions. -/
def find_quoted_roles (s : String) : List String :=
  find_quoted s.toList Option.none

/-! ## The annotation-value model

javalang represents the payload of an annotation (`annotation.element`) as
either `None`, a single expression node, or a Python list of
`ElementValuePair` nodes.  The expression nodes the source code ever
inspects are `Literal` (attribute `value`, the raw source token including
its quotes), `ElementArrayValue` (attribute `values`), `MemberReference`
(attribute `member`) and, defensively, `ElementValuePair` appearing as a
value (attributes `name`, `value`).  Anything else is `other`.  The
`hasattr` tests in the Python are translated via the `has_*_attr`
functions below, which record precisely which of these node classes carry
the attribute in question. -/

/-- An annotation-payload expression node. -/
inductive AnnoValue where
  /-- `javalang.tree.Literal`; `s` is the raw token, quotes included. -/
  | lit (s : String)
  /-- `javalang.tree.ElementArrayValue` with its `values` list. -/
  | arr (vs : List AnnoValue)
  /-- `javalang.tree.MemberReference`; `m` is the `member` attribute. -/
  | memberRef (m : String)
  /-- `javalang.tree.ElementValuePair` occurring as a value node. -/
  | pairNode (n : String) (v : AnnoValue)
  /-- any other expression node class. -/
  | other

/-- `annotation.element`. -/
inductive AnnoElement where
  /-- `annotation.element is None` (marker annotation without payload). -/
  | none
  /-- a single expression node. -/
  | expr (v : AnnoValue)
  /-- a Python list of `ElementValuePair`s (`@Ann(a = x, b = y)`). -/
  | pairs (ps : List (String × AnnoValue))

/-- A javalang `Annotation` node: its `name` and its `element`. -/
structure Annotation where
  name : String
  element : AnnoElement

/-- Python `hasattr(v, 'values')`: true exactly for `ElementArrayValue`. -/
def has_values_attr : AnnoValue → Bool
  | .arr _ => true
  | _ => false

/-- Python `hasattr(v, 'value')`: true for `Literal` (its raw token) and
for `ElementValuePair` (its right-hand side). -/
def has_value_attr : AnnoValue → Bool
  | .lit _ => true
  | .pairNode _ _ => true
  | _ => false

/-- Python `hasattr(v, 'name')`: among the modelled node classes only
`ElementValuePair` has a `name` attribute. -/
def has_name_attr : AnnoValue → Bool
  | .pairNode _ _ => true
  | _ => false

/-- The literal members of an array value, stripped of quotes and
comma-joined — the Python `", ".join(topics)` loops. -/
def join_literal_values (vs : List AnnoValue) : String :=
  join_comma (vs.filterMap fun v =>
    match v with
    | .lit s => some (strip_quotes s)
    | _ => Option.none)

/-- First `some` produced by `f` over a list (a Python `for` loop whose
body may `return`). -/
def first_some {α β : Type} (f : α → Option β) : List α → Option β
  | [] => Option.none
  | a :: rest =>
    match f a with
    | some b => some b
    | Option.none => first_some f rest

/-! ## `JavaASTParser._extract_annotation_param` (lines 520–561)

The four sequential `if` blocks of the Python body, each of which may
`return`; a matching annotation whose element fits none of the shapes
falls through to the next annotation of the loop, and the function
returns `""` when the loop finishes. -/

/-- Block 1 (line 525): a bare `Literal` element. -/
def annotation_param_block1 (e : AnnoElement) : Option String :=
  match e with
  | .expr (.lit s) => some (strip_quotes s)
  | _ => Option.none

/-- Block 2 (lines 529–540): a list of `ElementValuePair`s; the first pair
whose name matches and whose value is a `Literal` or has a `values`
attribute returns. -/
def annotation_param_block2 (e : AnnoElement) (param_name : String) : Option String :=
  match e with
  | .pairs ps =>
    first_some (fun (p : String × AnnoValue) =>
      if p.1 = param_name then
        match p.2 with
        | .lit s => some (strip_quotes s)
        | .arr vs => some (join_literal_values vs)
        | _ => Option.none
      else Option.none) ps
  | _ => Option.none

/-- Block 3 (lines 543–554): an element carrying a `values` attribute
(`ElementArrayValue`); each member that has a `name` attribute equal to
`param_name` is tried. -/
def annotation_param_block3 (e : AnnoElement) (param_name : String) : Option String :=
  match e with
  | .expr (.arr vs) =>
    first_some (fun v =>
      match v with
      | .pairNode n w =>
        if n = param_name then
          match w with
          | .lit s => some (strip_quotes s)
          | .arr ws => some (join_literal_values ws)
          | _ => Option.none
        else Option.none
      | _ => Option.none) vs
  | _ => Option.none

/-- Block 4 (lines 557–559): an element carrying a `value` attribute whose
`value` is a `Literal`; of the modelled element shapes only an
`ElementValuePair` node reaches here (a bare `Literal` element already
returned in block 1). -/
def annotation_param_block4 (e : AnnoElement) : Option String :=
  match e with
  | .expr (.pairNode _ (.lit s)) => some (strip_quotes s)
  | _ => Option.none

/-- One matching annotation's element, through the four blocks in order. -/
def annotation_param_of_element (e : AnnoElement) (param_name : String) : Option String :=
  match annotation_param_block1 e with
  | some r => some r
  | Option.none =>
    match annotation_param_block2 e param_name with
    | some r => some r
    | Option.none =>
      match annotation_param_block3 e param_name with
      | some r => some r
      | Option.none => annotation_param_block4 e

/-- `JavaASTParser._extract_annotation_param(method, annotation_name,
param_name)`, as a function of the method's annotation list.  Always
returns a string; the not-found result is `""`. -/
def extract_annotation_param (annotations : List Annotation)
    (annotation_name param_name : String) : String :=
  match annotations with
  | [] => ""
  | a :: rest =>
    if a.name = annotation_name then
      match annotation_param_of_element a.element param_name with
      | some r => r
      | Option.none => extract_annotation_param rest annotation_name param_name
    else extract_annotation_param rest annotation_name param_name

/-! ## The type-reference model

A javalang type node (`ReferenceType` / `BasicType`) always carries a
`name`, a possibly-`None` `sub_type` (the rest of a qualified-name chain),
an `arguments` list (generic type arguments, each a `TypeArgument` whose
`type` may be `None` for a wildcard) and a `dimensions` list (modelled by
its length).  The `sub_type` nodes of a qualified chain are walked only
for their names by the source, so nothing else of them needs modelling. -/

/-- A javalang type-reference node. -/
inductive TypeRef where
  | mk (name : String) (subType : Option TypeRef) (args : List (Option TypeRef)) (dims : Nat)

/-- The `name` attribute of a type node. -/
def TypeRef.name : TypeRef → String
  | .mk n _ _ _ => n

/-- The `arguments` attribute of a type node (each entry is the
`TypeArgument`'s `type`, `none` for a wildcard). -/
def TypeRef.args : TypeRef → List (Option TypeRef)
  | .mk _ _ a _ => a

/-! ## Methods and classes -/

/-- A javalang `MethodDeclaration`, restricted to the attributes the two
analysed modules read: `name`, `modifiers`, `annotations` and
`return_type` (`none` for `void`).  Formal parameters are not modelled:
no claim under verification mentions the parameter sub-extractor. -/
structure Method where
  name : String
  modifiers : List String
  annotations : List Annotation
  return_type : Option TypeRef

/-- A javalang `ClassDeclaration`: `name`, class-level `annotations`,
`methods`. -/
structure JavaClass where
  name : String
  annotations : List Annotation
  methods : List Method

/-- `JavaASTParser._get_annotations`: the list of annotation names. -/
def get_annotation_names (annotations : List Annotation) : List String :=
  annotations.map Annotation.name

/-! ## Security metadata (`_extract_security_annotations`, lines 440–497)

The Python builds a plain dict `security_info`; its five possible keys
become `Option` fields, and the dict's truthiness test at line 497
(`security_info if security_info else None`) becomes `SecurityInfo.isEmpty`. -/

/-- The `security_info` dict. -/
structure SecurityInfo where
  type : Option String := Option.none
  requires_auth : Option Bool := Option.none
  expression : Option String := Option.none
  roles : Option (List String) := Option.none
  denied : Option Bool := Option.none
deriving Repr, DecidableEq

/-- Python truthiness of the `security_info` dict: empty iff no key was
ever assigned. -/
def SecurityInfo.isEmpty (s : SecurityInfo) : Bool :=
  s.type.isNone && s.requires_auth.isNone && s.expression.isNone
    && s.roles.isNone && s.denied.isNone

/-- One annotation's effect on the `security_info` dict — the body of the
`for ann in node.annotations` loop. -/
def security_step (s : SecurityInfo) (a : Annotation) : SecurityInfo :=
  if a.name = "PreAuthorize" then
    let s := { s with type := some "PreAuthorize", requires_auth := some true }
    match a.element with
    | .expr (.lit v) =>
      let expr := strip_quotes v
      let s := { s with expression := some expr }
      if py_in "hasRole" expr || py_in "hasAuthority" expr then
        { s with roles := some (find_quoted_roles expr) }
      else s
    | _ => s
  else if a.name = "Secured" then
    let s := { s with type := some "Secured", requires_auth := some true }
    match a.element with
    | .expr (.arr vs) =>
      { s with roles := some (vs.filterMap fun v =>
          match v with
          | .lit w => some (strip_quotes w)
          | _ => Option.none) }
    | .expr (.lit v) => { s with roles := some [strip_quotes v] }
    | _ => s
  else if a.name = "RolesAllowed" then
    let s := { s with type := some "RolesAllowed", requires_auth := some true }
    match a.element with
    | .expr (.arr vs) =>
      { s with roles := some (vs.filterMap fun v =>
          match v with
          | .lit w => some (strip_quotes w)
          | _ => Option.none) }
    | .expr (.lit v) => { s with roles := some [strip_quotes v] }
    | _ => s
  else if a.name = "PermitAll" then
    { s with type := some "PermitAll", requires_auth := some false }
  else if a.name = "DenyAll" then
    { s with type := some "DenyAll", requires_auth := some true, denied := some true }
  else s

/-- `JavaASTParser._extract_security_annotations(node)`, as a function of
the node's annotation list.  `none` both when the node has no annotations
(line 442) and when no security annotation was recognized (line 497). -/
def extract_security_annotations (annotations : List Annotation) : Option SecurityInfo :=
  match annotations with
  | [] => Option.none
  | _ =>
    let s := annotations.foldl security_step {}
    if s.isEmpty then Option.none else some s

/-- Line 169: `security = method_security if method_security else
class_security`. -/
def resolve_security (method_security class_security : Option SecurityInfo) :
    Option SecurityInfo :=
  match method_security with
  | some s => some s
  | Option.none => class_security

/-! ## Mapping / path helpers of `JavaASTParser` -/

/-- `_extract_request_mapping` (lines 320–353), the body handling one
`RequestMapping` element: (a) bare `Literal`; (b) `ElementArrayValue`
whose first member is a `Literal`; (c) a pair list, first pair named
`value`/`path` whose value is a `Literal` or an array with a leading
`Literal`; (d) any element with a `values` attribute, first member
carrying a `value` attribute that is a `Literal` (among the modelled
nodes, an `ElementValuePair` member holding a `Literal`).  `none` means
the Python body reached no `return` for this annotation. -/
def request_mapping_of_element (e : AnnoElement) : Option String :=
  match e with
  | .none => Option.none
  | .expr (.lit s) => some (strip_quotes s)
  | .expr (.arr vs) =>
    match vs with
    | .lit s :: _ => some (strip_quotes s)
    | _ =>
      first_some (fun v =>
        match v with
        | .pairNode _ (.lit s) => some (strip_quotes s)
        | _ => Option.none) vs
  | .pairs ps =>
    first_some (fun (p : String × AnnoValue) =>
      if p.1 = "value" ∨ p.1 = "path" then
        match p.2 with
        | .lit s => some (strip_quotes s)
        | .arr (.lit s :: _) => some (strip_quotes s)
        | _ => Option.none
      else Option.none) ps
  | .expr _ => Option.none

/-- `JavaASTParser._extract_request_mapping(class_node)`: the first
`RequestMapping` annotation yielding a value; `""` otherwise. -/
def extract_request_mapping : List Annotation → String
  | [] => ""
  | a :: rest =>
    if a.name = "RequestMapping" then
      match request_mapping_of_element a.element with
      | some r => r
      | Option.none => extract_request_mapping rest
    else extract_request_mapping rest

/-- `JavaASTParser._extract_path_annotation(node)` (lines 355–365): the
first `Path` annotation with a bare `Literal` element. -/
def extract_path_annotation : List Annotation → String
  | [] => ""
  | a :: rest =>
    if a.name = "Path" then
      match a.element with
      | .expr (.lit s) => strip_quotes s
      | _ => extract_path_annotation rest
    else extract_path_annotation rest

/-- The `mapping_to_http` dict of `_get_http_method` (lines 369–376). -/
def mapping_to_http : List (String × String) :=
  [("GetMapping", "GET"), ("PostMapping", "POST"), ("PutMapping", "PUT"),
   ("DeleteMapping", "DELETE"), ("PatchMapping", "PATCH"),
   ("RequestMapping", "GET")]

/-- `JavaASTParser._get_http_method(mapping_ann, method)` (lines
367–377): `mapping_to_http.get(mapping_ann, 'GET')`.  The `method`
argument is accepted and, exactly as in the source, never read. -/
def get_http_method (mapping_ann : String) (_method : Method) : String :=
  match mapping_to_http.find? (fun p => p.1 == mapping_ann) with
  | some p => p.2
  | Option.none => "GET"

/-- The method-level mapping-annotation names (lines 154–155 / 382–383). -/
def mapping_types : List String :=
  ["GetMapping", "PostMapping", "PutMapping", "DeleteMapping",
   "PatchMapping", "RequestMapping"]

/-- `JavaASTParser._extract_method_path` (lines 379–387): the first
mapping annotation with a bare `Literal` element. -/
def extract_method_path_aux : List Annotation → String
  | [] => ""
  | a :: rest =>
    if a.name ∈ mapping_types then
      match a.element with
      | .expr (.lit s) => strip_quotes s
      | _ => extract_method_path_aux rest
    else extract_method_path_aux rest

/-- `_extract_method_path(method, annotations)` as a function of the
method (the `annotations` argument is never read by the source body). -/
def extract_method_path (m : Method) : String :=
  extract_method_path_aux m.annotations

/-- `JavaASTParser._extract_return_type(method)` (lines 499–518): `"void"`
for an absent return type, otherwise the type's `name`, with the names of
any present generic arguments (taken directly, not recursively) joined in
angle brackets. -/
def extract_return_type (m : Method) : String :=
  match m.return_type with
  | Option.none => "void"
  | some t =>
    let generic_args := t.args.filterMap fun a =>
      match a with
      | some u => some u.name
      | Option.none => Option.none
    if generic_args.isEmpty then t.name
    else t.name ++ "<" ++ join_comma generic_args ++ ">"

/-- Placeholder for Python `str()` applied to a javalang node inside
`_extract_schedule_info`: the source only ever distinguishes `Literal`
(whose raw token it prints); for every other node class it prints the
node's repr, whose exact text nothing downstream reads. -/
def py_str_node : AnnoValue → String
  | .lit s => s
  | .arr _ => "ElementArrayValue"
  | .memberRef m => "MemberReference(member=" ++ m ++ ")"
  | .pairNode n _ => "ElementValuePair(name=" ++ n ++ ")"
  | .other => "Node"

/-- One `name=value` part of a schedule string (lines 570–574): the raw
literal token (or the node's `str()`) stripped of double quotes. -/
def schedule_pair_str (p : String × AnnoValue) : String :=
  p.1 ++ "=" ++ strip_quotes (py_str_node p.2)

/-- `JavaASTParser._extract_schedule_info(method)` (lines 563–587). -/
def extract_schedule_info_aux : List Annotation → String
  | [] => "Unknown schedule"
  | a :: rest =>
    if a.name = "Scheduled" then
      match a.element with
      | .pairs [] => extract_schedule_info_aux rest
      | .pairs ps => join_comma (ps.map schedule_pair_str)
      | .expr (.arr vs) =>
        let parts := vs.filterMap fun v =>
          match v with
          | .pairNode n w => some (n ++ "=" ++ py_str_node w)
          | _ => Option.none
        if parts.isEmpty then extract_schedule_info_aux rest
        else join_comma parts
      | _ => extract_schedule_info_aux rest
    else extract_schedule_info_aux rest

/-- `_extract_schedule_info` on a method. -/
def extract_schedule_info (m : Method) : String :=
  extract_schedule_info_aux m.annotations

/-! ## Entry points

The `details` dict of an `EntryPoint` holds only keys valid for its kind;
kind-specific constant keys (`framework`, `consumer_type`, `annotation`,
`description` of the constant-text kinds) are carried by the constructor
choice.  The `parameters` entry (from `_extract_parameters`) is not
modelled: no claim under verification mentions it. -/

/-- The kind-specific `details` dict. -/
inductive Details where
  /-- REST (Spring): `http_method`, `path`, `return_type`, `security`. -/
  | rest (http_method path return_type : String) (security : Option SecurityInfo)
  /-- REST (JAX-RS): `http_method`, `path`, `framework = "JAX-RS"`. -/
  | jaxrs (http_method path : String)
  /-- `MAIN_APPLICATION` constant details. -/
  | mainApplication
  /-- Kafka `MESSAGE_CONSUMER`: `consumer_type = "Kafka"`, `topics`. -/
  | kafkaConsumer (topics : String)
  /-- JMS `MESSAGE_CONSUMER`: `consumer_type = "JMS"`, `destination`. -/
  | jmsConsumer (destination : String)
  /-- `BATCH_JOB`: `job_type = "Spring Batch"`, `description`. -/
  | batchJob (description : String)
  /-- `SCHEDULED_TASK`: `schedule`, `description`. -/
  | scheduledTask (schedule : String)
  /-- `CLI` constant details. -/
  | cli
deriving Repr, DecidableEq

/-- The `EntryPoint` dataclass (lines 13–20). -/
structure EntryPoint where
  type : String
  class_name : String
  method_name : String
  file_path : String
  details : Details
deriving Repr, DecidableEq

/-- The `path` detail of a REST-kind entry point. -/
def Details.path? : Details → Option String
  | .rest _ p _ _ => some p
  | .jaxrs _ p => some p
  | _ => Option.none

/-! ## Category predicates (lines 105–140) -/

/-- `_get_annotations` on a class or method node, then the predicate
`_is_rest_controller`. -/
def is_rest_controller (annotations : List String) : Bool :=
  annotations.contains "RestController" || annotations.contains "Controller"

/-- `_is_jaxrs_resource`. -/
def is_jaxrs_resource (annotations : List String) : Bool :=
  annotations.contains "Path"

/-- `_is_spring_boot_app`. -/
def is_spring_boot_app (annotations : List String) : Bool :=
  annotations.contains "SpringBootApplication"

/-- `_is_message_consumer`. -/
def is_message_consumer (annotations : List String) : Bool :=
  annotations.contains "Component" || annotations.contains "Service"

/-- `_is_batch_job`. -/
def is_batch_job (annotations : List String) : Bool :=
  annotations.contains "Configuration" && annotations.contains "EnableBatchProcessing"

/-- `_has_scheduled_methods` (lines 125–131). -/
def has_scheduled_methods (c : JavaClass) : Bool :=
  c.methods.any fun m => (get_annotation_names m.annotations).contains "Scheduled"

/-- `_has_main_method` (lines 133–140). -/
def has_main_method (c : JavaClass) : Bool :=
  c.methods.any fun m =>
    m.name == "main" && m.modifiers.contains "static" && m.modifiers.contains "public"

/-! ## Category extractors -/

/-- `_extract_rest_endpoints` (lines 142–187). -/
def extract_rest_endpoints (c : JavaClass) (file_path package_name : String) :
    List EntryPoint :=
  let base_path := extract_request_mapping c.annotations
  let class_security := extract_security_annotations c.annotations
  c.methods.flatMap fun m =>
    let method_annotations := get_annotation_names m.annotations
    mapping_types.filterMap fun mapping =>
      if method_annotations.contains mapping then
        let http_method := get_http_method mapping m
        let path := extract_method_path m
        let collapsed := replace_double_slash (base_path ++ path)
        let full_path :=
          if collapsed != "" && !starts_with_slash collapsed then "/" ++ collapsed
          else collapsed
        let method_security := extract_security_annotations m.annotations
        let security := resolve_security method_security class_security
        some { type := "REST",
               class_name := package_name ++ "." ++ c.name,
               method_name := m.name,
               file_path := file_path,
               details := .rest http_method full_path (extract_return_type m) security }
      else Option.none

/-- The JAX-RS method-level HTTP annotation names (line 198). -/
def jaxrs_http_methods : List String := ["GET", "POST", "PUT", "DELETE", "PATCH"]

/-- `_extract_jaxrs_endpoints` (lines 189–217).  Note: unlike the Spring
variant, no leading-slash normalization. -/
def extract_jaxrs_endpoints (c : JavaClass) (file_path package_name : String) :
    List EntryPoint :=
  let base_path := extract_path_annotation c.annotations
  c.methods.flatMap fun m =>
    let method_annotations := get_annotation_names m.annotations
    jaxrs_http_methods.filterMap fun http_method =>
      if method_annotations.contains http_method then
        let path := extract_path_annotation m.annotations
        let full_path := replace_double_slash (base_path ++ path)
        some { type := "REST",
               class_name := package_name ++ "." ++ c.name,
               method_name := m.name,
               file_path := file_path,
               details := .jaxrs http_method full_path }
      else Option.none

/-- `_extract_main_entry_point` (lines 219–231). -/
def extract_main_entry_point (c : JavaClass) (file_path package_name : String) :
    List EntryPoint :=
  [{ type := "MAIN_APPLICATION",
     class_name := package_name ++ "." ++ c.name,
     method_name := "main",
     file_path := file_path,
     details := .mainApplication }]

/-- `_extract_message_listeners` (lines 233–266). -/
def extract_message_listeners (c : JavaClass) (file_path package_name : String) :
    List EntryPoint :=
  c.methods.filterMap fun m =>
    let method_annotations := get_annotation_names m.annotations
    if method_annotations.contains "KafkaListener" then
      some { type := "MESSAGE_CONSUMER",
             class_name := package_name ++ "." ++ c.name,
             method_name := m.name,
             file_path := file_path,
             details := .kafkaConsumer
               (extract_annotation_param m.annotations "KafkaListener" "topics") }
    else if method_annotations.contains "JmsListener" then
      some { type := "MESSAGE_CONSUMER",
             class_name := package_name ++ "." ++ c.name,
             method_name := m.name,
             file_path := file_path,
             details := .jmsConsumer
               (extract_annotation_param m.annotations "JmsListener" "destination") }
    else Option.none

/-- `_extract_batch_jobs` (lines 268–284): a `Bean` method whose return
type exists and whose type name contains `"Job"`. -/
def extract_batch_jobs (c : JavaClass) (file_path package_name : String) :
    List EntryPoint :=
  c.methods.filterMap fun m =>
    if (get_annotation_names m.annotations).contains "Bean" then
      match m.return_type with
      | some t =>
        if py_in "Job" t.name then
          some { type := "BATCH_JOB",
                 class_name := package_name ++ "." ++ c.name,
                 method_name := m.name,
                 file_path := file_path,
                 details := .batchJob ("Batch job: " ++ m.name) }
        else Option.none
      | Option.none => Option.none
    else Option.none

/-- `_extract_scheduled_tasks` (lines 286–303). -/
def extract_scheduled_tasks (c : JavaClass) (file_path package_name : String) :
    List EntryPoint :=
  c.methods.filterMap fun m =>
    if (get_annotation_names m.annotations).contains "Scheduled" then
      some { type := "SCHEDULED_TASK",
             class_name := package_name ++ "." ++ c.name,
             method_name := m.name,
             file_path := file_path,
             details := .scheduledTask (extract_schedule_info m) }
    else Option.none

/-- `_extract_cli_entry_point` (lines 305–316). -/
def extract_cli_entry_point (c : JavaClass) (file_path package_name : String) :
    List EntryPoint :=
  [{ type := "CLI",
     class_name := package_name ++ "." ++ c.name,
     method_name := "main",
     file_path := file_path,
     details := .cli }]

/-! ## `_analyze_class` (lines 63–97) -/

/-- The six primary categories, in the priority order of the `elif`
chain. -/
inductive Category where
  | restController | jaxrsResource | springBootApp
  | messageConsumer | batchJob | cliMain
deriving Repr, DecidableEq

/-- The primary-category decision of `_analyze_class`: the `if/elif`
chain of lines 71–92, transcribed condition for condition. -/
def classify (c : JavaClass) : Option Category :=
  let class_annotations := get_annotation_names c.annotations
  if is_rest_controller class_annotations then some .restController
  else if is_jaxrs_resource class_annotations then some .jaxrsResource
  else if is_spring_boot_app class_annotations then some .springBootApp
  else if is_message_consumer class_annotations then some .messageConsumer
  else if is_batch_job class_annotations then some .batchJob
  else if has_main_method c then some .cliMain
  else Option.none

/-- Which extractor each category's branch of `_analyze_class` calls. -/
def run_category_extractor : Category → JavaClass → String → String → List EntryPoint
  | .restController, c, fp, pkg => extract_rest_endpoints c fp pkg
  | .jaxrsResource, c, fp, pkg => extract_jaxrs_endpoints c fp pkg
  | .springBootApp, c, fp, pkg => extract_main_entry_point c fp pkg
  | .messageConsumer, c, fp, pkg => extract_message_listeners c fp pkg
  | .batchJob, c, fp, pkg => extract_batch_jobs c fp pkg
  | .cliMain, c, fp, pkg => extract_cli_entry_point c fp pkg

/-- `JavaASTParser._analyze_class(class_node, file_path, package_name)`:
the entry points the call appends, in order — the `if/elif` chain of
primary-category extraction (lines 71–92) followed by the independent
scheduled-task check (lines 94–97). -/
def analyze_class (c : JavaClass) (file_path package_name : String) :
    List EntryPoint :=
  (let class_annotations := get_annotation_names c.annotations
   if is_rest_controller class_annotations then
     extract_rest_endpoints c file_path package_name
   else if is_jaxrs_resource class_annotations then
     extract_jaxrs_endpoints c file_path package_name
   else if is_spring_boot_app class_annotations then
     extract_main_entry_point c file_path package_name
   else if is_message_consumer class_annotations then
     extract_message_listeners c file_path package_name
   else if is_batch_job class_annotations then
     extract_batch_jobs c file_path package_name
   else if has_main_method c then
     extract_cli_entry_point c file_path package_name
   else [])
  ++ (if has_scheduled_methods c then
        extract_scheduled_tasks c file_path package_name
      else [])

/-- The spec's ordered `(predicate, category)` dispatch table: REST-style
controller → RPC/path-based resource → application bootstrap →
message-consumer-capable component → batch-job configuration → explicit
command-line entry. -/
def category_dispatch : List ((JavaClass → Bool) × Category) :=
  [(fun c => is_rest_controller (get_annotation_names c.annotations), .restController),
   (fun c => is_jaxrs_resource (get_annotation_names c.annotations), .jaxrsResource),
   (fun c => is_spring_boot_app (get_annotation_names c.annotations), .springBootApp),
   (fun c => is_message_consumer (get_annotation_names c.annotations), .messageConsumer),
   (fun c => is_batch_job (get_annotation_names c.annotations), .batchJob),
   (has_main_method, .cliMain)]

/-! ## `ModelSchemaExtractor._get_type_string` (lines 272–327) -/

/-- `_get_qualified_type` (lines 312–327): walk the `sub_type` chain and
return the last name of the chain (the simple terminal segment). -/
def qualified_terminal : TypeRef → String
  | .mk n Option.none _ _ => n
  | .mk _ (some st) _ _ => qualified_terminal st

mutual
/-- `_get_type_string(type_node)` for a present type node: the node's
name (collapsed to the terminal segment when a `sub_type` chain is
present), with recursively rendered generic arguments joined in angle
brackets when any resolve.  The `dimensions` attribute is never consulted:
the dimension-appending block at lines 304–308 requires a `name` attribute,
and every node with a `name` already returned at line 301. -/
def get_type_string : TypeRef → String
  | .mk n st args _dims =>
    let base :=
      match st with
      | Option.none => n
      | some s => qualified_terminal s
    let generic_args := get_arg_strings args
    if generic_args.isEmpty then base
    else base ++ "<" ++ join_comma generic_args ++ ">"

/-- The generic-argument loop of lines 290–296: a `TypeArgument` with a
present `type` is rendered recursively, a wildcard contributes nothing. -/
def get_arg_strings : List (Option TypeRef) → List String
  | [] => []
  | Option.none :: rest => get_arg_strings rest
  | some t :: rest => get_type_string t :: get_arg_strings rest
end

/-- The possible inputs of `_get_type_string`: `None`, a plain Python
string, or a type node. -/
inductive TypeNode where
  | null
  | str (s : String)
  | ref (t : TypeRef)

/-- `_get_type_string` including its `None` → `"void"` and string
pass-through branches (lines 274–278). -/
def get_type_string_top : TypeNode → String
  | .null => "void"
  | .str s => s
  | .ref t => get_type_string t

/-! ## `ModelSchemaExtractor` field schemas (lines 54–72, 203–237) -/

/-- `REQUIRED_ANNOTATIONS` (lines 55–57). -/
def required_annotations : List String :=
  ["NotNull", "NotEmpty", "NotBlank", "NonNull"]

/-- `VALIDATION_ANNOTATIONS` (lines 60–68). -/
def validation_annotations : List String :=
  ["NotNull", "NotEmpty", "NotBlank", "NonNull",
   "Size", "Min", "Max", "Range",
   "Email", "Pattern", "URL",
   "Positive", "PositiveOrZero", "Negative", "NegativeOrZero",
   "Past", "PastOrPresent", "Future", "FutureOrPresent",
   "Digits", "DecimalMin", "DecimalMax",
   "Valid"]

/-- `COLLECTION_TYPES` (line 71). -/
def collection_types : List String :=
  ["List", "Set", "Collection", "ArrayList", "HashSet", "LinkedList"]

/-- The `FieldSchema` dataclass (lines 21–32).  The `nested_schema` slot
is omitted: no statement of the module ever assigns it. -/
structure FieldSchema where
  name : String
  type : String
  required : Bool := false
  validations : List String := []
  default_value : Option String := Option.none
  description : Option String := Option.none
  is_collection : Bool := false
  collection_type : Option String := Option.none
deriving Repr, DecidableEq

/-- The `ModelSchema` dataclass (lines 35–41). -/
structure ModelSchema where
  class_name : String
  package_name : String
  fields : List FieldSchema := []
  file_path : Option String := Option.none
deriving Repr, DecidableEq

/-- A javalang `FieldDeclaration`: declarator names, the shared type,
and the annotations. -/
structure FieldDecl where
  declarators : List String
  type : TypeRef
  annotations : List Annotation

/-- `_format_annotation` (lines 329–347): `@Name`, with a raw literal
payload or the `name=literal` pairs in parentheses. -/
def format_annotation_text (a : Annotation) : String :=
  let base := "@" ++ a.name
  match a.element with
  | .expr (.lit v) => base ++ "(" ++ v ++ ")"
  | .pairs ps =>
    let params := ps.filterMap fun (p : String × AnnoValue) =>
      match p.2 with
      | .lit s => some (p.1 ++ "=" ++ s)
      | _ => Option.none
    if params.isEmpty then base
    else base ++ "(" ++ join_comma params ++ ")"
  | _ => base

/-- One annotation's effect on a field schema — the loop body of lines
229–233: a required-implying name sets `required`; any recognized
validation name appends its formatted text. -/
def field_annotation_step (acc : FieldSchema) (a : Annotation) : FieldSchema :=
  let acc :=
    if required_annotations.contains a.name then { acc with required := true }
    else acc
  if validation_annotations.contains a.name then
    { acc with validations := acc.validations ++ [format_annotation_text a] }
  else acc

/-- The pre-annotation part of `_extract_field_schema` for one declarator
(lines 208–225): the schema named and typed by `_get_type_string`, with
the collection special case — a known collection type name sets the
collection flags and, when a first generic argument with a name exists,
rewrites the display type. -/
def field_schema_base (fd : FieldDecl) (dname : String) : FieldSchema :=
  let base : FieldSchema := { name := dname, type := get_type_string fd.type }
  if collection_types.contains fd.type.name then
    let s := { base with is_collection := true,
                         collection_type := some fd.type.name }
    match fd.type.args with
    | some u :: _ => { s with type := fd.type.name ++ "<" ++ u.name ++ ">" }
    | _ => s
  else base

/-- `_extract_field_schema(field_decl)` (lines 203–237): one schema per
declarator — the pre-annotation base, then the annotation loop. -/
def extract_field_schema (fd : FieldDecl) : List FieldSchema :=
  fd.declarators.map fun dname =>
    fd.annotations.foldl field_annotation_step (field_schema_base fd dname)

/-! ## `ModelSchemaExtractor.extract_schema` (lines 87–112)

The two file-system steps — `_find_class_file` (index lookup plus
full-text fallback scan, lines 114–129) and `_parse_class_file` (lines
131–153) — read the repository from disk; their composition is the
parameter `resolve_on_disk` below, a map from simple class name to the
schema parsed from whatever file currently backs that name (`none` when
no file is found or the file fails to parse).  Passing a different
`resolve_on_disk` to a later call models the underlying files changing
mid-run.  The `self.schemas` dict is the explicit cache state. -/

/-- The `self.schemas` dict: simple class name → schema. -/
structure SchemaCache where
  schemas : List (String × ModelSchema) := []
deriving Repr, DecidableEq

/-- Dict lookup in `self.schemas`. -/
def cache_lookup : List (String × ModelSchema) → String → Option ModelSchema
  | [], _ => Option.none
  | (k, v) :: rest, n => if k = n then some v else cache_lookup rest n

/-- `extract_schema(class_name)`: reduce to the simple name, serve from
the cache when present, otherwise resolve from disk and cache a success. -/
def extract_schema (resolve_on_disk : String → Option ModelSchema)
    (st : SchemaCache) (class_name : String) :
    Option ModelSchema × SchemaCache :=
  let simple_name := last_segment class_name
  match cache_lookup st.schemas simple_name with
  | some s => (some s, st)
  | Option.none =>
    match resolve_on_disk simple_name with
    | Option.none => (Option.none, st)
    | some schema => (some schema, ⟨(simple_name, schema) :: st.schemas⟩)

/-! ## Specification-side definitions and concrete sample data -/

/-- The path normalization the endpoint extractor applies to
`base_path + path` (lines 161–165): one `'//' → '/'` replacement pass,
then a leading slash added to a nonempty result that lacks one. -/
def spec_collapse_and_normalize (s : String) : String :=
  let collapsed := replace_double_slash s
  if collapsed != "" && !starts_with_slash collapsed then "/" ++ collapsed
  else collapsed

/-- Modelled from the spec: the HTTP-verb rule as the specification words
it — the verb comes from the marker name, or from an explicit `method`
attribute on the generic `RequestMapping` marker, defaulting to GET when
neither determines a verb.  Stated only for comparison with
`get_http_method`, the rule the source actually implements. -/
def spec_http_verb (mapping_ann : String) (m : Method) : String :=
  if mapping_ann = "RequestMapping" then
    match first_some (fun a =>
      if a.name = "RequestMapping" then
        match a.element with
        | .pairs ps =>
          first_some (fun (p : String × AnnoValue) =>
            if p.1 = "method" then
              match p.2 with
              | .memberRef v => some v
              | _ => Option.none
            else Option.none) ps
        | _ => Option.none
      else Option.none) m.annotations with
    | some v => v
    | Option.none => "GET"
  else
    match mapping_to_http.find? (fun p => p.1 == mapping_ann) with
    | some p => p.2
    | Option.none => "GET"

/-- A handler method declared `@RequestMapping(method = RequestMethod.POST)`
(javalang renders the attribute value as a `MemberReference` with member
`POST`). -/
def requestMappingPostMethod : Method :=
  { name := "create", modifiers := ["public"],
    annotations := [⟨"RequestMapping", .pairs [("method", .memberRef "POST")]⟩],
    return_type := Option.none }

/-- A controller owning only `requestMappingPostMethod`. -/
def requestMappingPostController : JavaClass :=
  { name := "OrderController",
    annotations := [⟨"RestController", .none⟩],
    methods := [requestMappingPostMethod] }

/-- A `@KafkaListener({"t1", "t2"})` bare-array-literal annotation list. -/
def kafkaBareArrayAnnotations : List Annotation :=
  [⟨"KafkaListener", .expr (.arr [.lit "\"t1\"", .lit "\"t2\""])⟩]

/-- A `@KafkaListener(topics = "tx-events")` consumer method. -/
def kafkaListenerMethod : Method :=
  { name := "analyze", modifiers := ["public"],
    annotations := [⟨"KafkaListener", .pairs [("topics", .lit "\"tx-events\"")]⟩],
    return_type := Option.none }

/-- A `@Scheduled(cron = "0 0 * * *")` method. -/
def scheduledCronMethod : Method :=
  { name := "tick", modifiers := ["public"],
    annotations := [⟨"Scheduled", .pairs [("cron", .lit "\"0 0 * * *\"")]⟩],
    return_type := Option.none }

/-- A `@Component` class that is classified as a message consumer and
also owns a scheduled method. -/
def componentWithScheduledClass : JavaClass :=
  { name := "FraudListener",
    annotations := [⟨"Component", .none⟩],
    methods := [kafkaListenerMethod, scheduledCronMethod] }

/-- A `@GetMapping("/items")` handler returning `List<Item>`. -/
def getItemsMethod : Method :=
  { name := "list", modifiers := ["public"],
    annotations := [⟨"GetMapping", .expr (.lit "\"/items\"")⟩],
    return_type := some (.mk "List" Option.none [some (.mk "Item" Option.none [] 0)] 0) }

/-- A `@RestController @RequestMapping("/api/")` controller owning
`getItemsMethod`. -/
def itemControllerClass : JavaClass :=
  { name := "ItemController",
    annotations := [⟨"RestController", .none⟩, ⟨"RequestMapping", .expr (.lit "\"/api/\"")⟩],
    methods := [getItemsMethod] }

/-- The entry point `extract_rest_endpoints` emits for
`itemControllerClass`. -/
def itemControllerEntry : EntryPoint :=
  { type := "REST", class_name := "com.shop.ItemController",
    method_name := "list", file_path := "C.java",
    details := .rest "GET" "/api/items" "List<Item>" Option.none }

/-- A class-level `@Secured({"ADMIN"})` annotation. -/
def securedAdminMarker : Annotation :=
  ⟨"Secured", .expr (.arr [.lit "\"ADMIN\""])⟩

/-- A method-level `@PermitAll` marker. -/
def permitAllMarker : Annotation :=
  ⟨"PermitAll", .none⟩

/-- The field declaration `@NotNull @Size(min=1, max=5) BigDecimal amount;`. -/
def amountFieldDecl : FieldDecl :=
  { declarators := ["amount"],
    type := .mk "BigDecimal" Option.none [] 0,
    annotations := [⟨"NotNull", .none⟩,
                    ⟨"Size", .pairs [("min", .lit "1"), ("max", .lit "5")]⟩] }

/-- The field schema `extract_field_schema` produces for
`amountFieldDecl`. -/
def amountFieldSchema : FieldSchema :=
  { name := "amount", type := "BigDecimal", required := true,
    validations := ["@NotNull", "@Size(min=1, max=5)"] }

/-- A parsed schema for class `Order`. -/
def orderSchemaEx : ModelSchema :=
  { class_name := "Order", package_name := "com.a",
    fields := [amountFieldSchema], file_path := some "Order.java" }

/-- A disk state on which simple name `Order` resolves to
`orderSchemaEx`. -/
def orderDisk : String → Option ModelSchema :=
  fun s => if s = "Order" then some orderSchemaEx else Option.none

/-- A disk state on which nothing resolves (the backing file was deleted
or changed to something unparsable mid-run). -/
def emptyDisk : String → Option ModelSchema :=
  fun _ => Option.none

/-! ## Helper lemmas -/

/-- Scanning the members of a bare array literal for a named pair finds
nothing when every member is a literal. -/
theorem annotation_param_block3_all_literals (p : String) (vs : List AnnoValue)
    (h : ∀ v ∈ vs, ∃ s, v = .lit s) :
    annotation_param_block3 (.expr (.arr vs)) p = Option.none := by
  induction vs with
  | nil => rfl
  | cons v rest ih =>
    obtain ⟨s, rfl⟩ := h v (List.mem_cons_self v rest)
    have hrest := ih fun w hw => h w (List.mem_cons_of_mem _ hw)
    simpa [annotation_param_block3, first_some] using hrest

/-- The annotation fold only ever ORs the `required` flag with the
required-implying membership test. -/
theorem foldl_field_step_required (anns : List Annotation) :
    ∀ acc : FieldSchema,
      (anns.foldl field_annotation_step acc).required
        = (acc.required || anns.any fun a => required_annotations.contains a.name) := by
  induction anns with
  | nil => intro acc; simp
  | cons a rest ih =>
    intro acc
    have hstep : (field_annotation_step acc a).required
        = (acc.required || required_annotations.contains a.name) := by
      by_cases h1 : a.name ∈ required_annotations <;>
        by_cases h2 : a.name ∈ validation_annotations <;>
          simp [field_annotation_step, h1, h2]
    rw [List.foldl_cons, ih, List.any_cons, hstep, Bool.or_assoc]

/-- The annotation fold appends exactly the formatted recognized
validation tags, in order. -/
theorem foldl_field_step_validations (anns : List Annotation) :
    ∀ acc : FieldSchema,
      (anns.foldl field_annotation_step acc).validations
        = acc.validations
          ++ (anns.filter fun a => validation_annotations.contains a.name).map
               format_annotation_text := by
  induction anns with
  | nil => intro acc; simp
  | cons a rest ih =>
    intro acc
    have hstep : (field_annotation_step acc a).validations
        = acc.validations
          ++ (if validation_annotations.contains a.name
              then [format_annotation_text a] else []) := by
      by_cases h1 : a.name ∈ required_annotations <;>
        by_cases h2 : a.name ∈ validation_annotations <;>
          simp [field_annotation_step, h1, h2]
    rw [List.foldl_cons, ih, hstep, List.filter_cons]
    by_cases h2 : a.name ∈ validation_annotations <;>
      simp [h2, List.append_assoc]

/-! ## Claim theorems -/

/-- Claim C1: for every class, the primary-category decision of
`_analyze_class` equals the first match over the spec's ordered
`(predicate, category)` dispatch table — REST controller, then JAX-RS
resource, then Spring Boot application, then message consumer, then batch
job, then main method — and `_analyze_class` emits exactly the chosen
category's extractor output (no other primary extractor) followed by the
independent scheduled-task pass. -/
theorem classify_is_first_matching_category (c : JavaClass) (fp pkg : String) :
    classify c = ((category_dispatch.find? fun q => q.1 c).map Prod.snd)
    ∧ analyze_class c fp pkg =
        ((classify c).elim [] fun cat => run_category_extractor cat c fp pkg)
          ++ (if has_scheduled_methods c then extract_scheduled_tasks c fp pkg
              else []) := by
  refine ⟨?_, ?_⟩ <;>
  · cases h1 : is_rest_controller (get_annotation_names c.annotations) <;>
    cases h2 : is_jaxrs_resource (get_annotation_names c.annotations) <;>
    cases h3 : is_spring_boot_app (get_annotation_names c.annotations) <;>
    cases h4 : is_message_consumer (get_annotation_names c.annotations) <;>
    cases h5 : is_batch_job (get_annotation_names c.annotations) <;>
    cases h6 : has_main_method c <;>
    simp [classify, category_dispatch, run_category_extractor, analyze_class,
          List.find?, h1, h2, h3, h4, h5, h6]

/-- Claim C2: every method carrying the `Scheduled` marker contributes a
`SCHEDULED_TASK` entry point to its class's `_analyze_class` output,
whatever the class's primary classification (or none). -/
theorem scheduled_task_emitted_regardless_of_category
    (c : JavaClass) (fp pkg : String) (m : Method)
    (hm : m ∈ c.methods)
    (hs : (get_annotation_names m.annotations).contains "Scheduled" = true) :
    ({ type := "SCHEDULED_TASK", class_name := pkg ++ "." ++ c.name,
       method_name := m.name, file_path := fp,
       details := .scheduledTask (extract_schedule_info m) } : EntryPoint)
      ∈ analyze_class c fp pkg := by
  have hsch : has_scheduled_methods c = true :=
    List.any_eq_true.mpr ⟨m, hm, hs⟩
  have hmem : ({ type := "SCHEDULED_TASK",
                 class_name := pkg ++ "." ++ c.name,
                 method_name := m.name, file_path := fp,
                 details := .scheduledTask (extract_schedule_info m) } : EntryPoint)
      ∈ extract_scheduled_tasks c fp pkg := by
    refine List.mem_filterMap.mpr ⟨m, hm, ?_⟩
    have hs' : "Scheduled" ∈ get_annotation_names m.annotations := by simpa using hs
    simp [hs']
  simp only [analyze_class, hsch, if_true]
  exact List.mem_append_right _ hmem

/-- Claim C2 witness: a `@Component` message-consumer class whose
scheduled method still yields a `SCHEDULED_TASK` entry. -/
theorem scheduled_task_emitted_regardless_of_category_witness :
    ({ type := "SCHEDULED_TASK", class_name := "com.bank.FraudListener",
       method_name := "tick", file_path := "F.java",
       details := .scheduledTask (extract_schedule_info scheduledCronMethod) } : EntryPoint)
      ∈ analyze_class componentWithScheduledClass "F.java" "com.bank" :=
  scheduled_task_emitted_regardless_of_category
    componentWithScheduledClass "F.java" "com.bank" scheduledCronMethod
    (List.mem_cons_of_mem _ (List.mem_cons_self _ _)) (by decide)

/-- Claim C3, counterexample: the source computes the HTTP verb from the
marker name alone; on a `@RequestMapping(method = RequestMethod.POST)`
handler the emitted verb is `GET`, where the claim's explicit-attribute
rule (`spec_http_verb`) yields `POST`. -/
theorem http_verb_ignores_method_attribute_cex :
    extract_rest_endpoints requestMappingPostController "C.java" "com.x"
      = [{ type := "REST", class_name := "com.x.OrderController",
           method_name := "create", file_path := "C.java",
           details := .rest "GET" "" "void" Option.none }]
    ∧ spec_http_verb "RequestMapping" requestMappingPostMethod = "POST"
    ∧ ("GET" : String) ≠ "POST" := by
  refine ⟨by decide, by decide, by decide⟩

/-- Claim C3 as amended: the HTTP verb is computed from the marker name
alone — `GetMapping ↦ GET`, `PostMapping ↦ POST`, `PutMapping ↦ PUT`,
`DeleteMapping ↦ DELETE`, `PatchMapping ↦ PATCH`, `RequestMapping ↦ GET`
unconditionally, any unrecognized marker `↦ GET` — and never depends on
the method node (so an explicit `method` attribute is ignored). -/
theorem http_verb_from_marker_name_only (m : Method) :
    get_http_method "GetMapping" m = "GET"
    ∧ get_http_method "PostMapping" m = "POST"
    ∧ get_http_method "PutMapping" m = "PUT"
    ∧ get_http_method "DeleteMapping" m = "DELETE"
    ∧ get_http_method "PatchMapping" m = "PATCH"
    ∧ get_http_method "RequestMapping" m = "GET"
    ∧ (∀ mapping, mapping ∉ mapping_types → get_http_method mapping m = "GET")
    ∧ (∀ (mapping : String) (m' : Method),
        get_http_method mapping m = get_http_method mapping m') := by
  refine ⟨rfl, rfl, rfl, rfl, rfl, rfl, ?_, fun _ _ => rfl⟩
  intro mapping hm
  simp only [mapping_types, List.mem_cons, List.not_mem_nil, or_false,
             not_or] at hm
  obtain ⟨h1, h2, h3, h4, h5, h6⟩ := hm
  have b1 : ("GetMapping" == mapping) = false := beq_eq_false_iff_ne.mpr (Ne.symm h1)
  have b2 : ("PostMapping" == mapping) = false := beq_eq_false_iff_ne.mpr (Ne.symm h2)
  have b3 : ("PutMapping" == mapping) = false := beq_eq_false_iff_ne.mpr (Ne.symm h3)
  have b4 : ("DeleteMapping" == mapping) = false := beq_eq_false_iff_ne.mpr (Ne.symm h4)
  have b5 : ("PatchMapping" == mapping) = false := beq_eq_false_iff_ne.mpr (Ne.symm h5)
  have b6 : ("RequestMapping" == mapping) = false := beq_eq_false_iff_ne.mpr (Ne.symm h6)
  simp [get_http_method, mapping_to_http, List.find?, b1, b2, b3, b4, b5, b6]

/-- Claim C3 witness: an unrecognized marker name defaults to `GET`. -/
theorem http_verb_from_marker_name_only_witness :
    get_http_method "FooMapping" requestMappingPostMethod = "GET" :=
  (http_verb_from_marker_name_only requestMappingPostMethod).2.2.2.2.2.2.1
    "FooMapping" (by decide)

/-- Claim C4: every emitted Spring REST entry point's path is the
class-level base path concatenated with the method-level path, one
double-slash collapse pass applied and a leading slash ensured; in
particular base `"/api/"` plus method `"/items"` yields exactly
`"/api/items"`. -/
theorem rest_full_path_concatenation :
    (∀ (c : JavaClass) (fp pkg : String) (ep : EntryPoint),
        ep ∈ extract_rest_endpoints c fp pkg →
        ∃ m ∈ c.methods,
          ep.details.path? =
            some (spec_collapse_and_normalize
              (extract_request_mapping c.annotations ++ extract_method_path m)))
    ∧ spec_collapse_and_normalize ("/api/" ++ "/items") = "/api/items" := by
  constructor
  · intro c fp pkg ep hep
    simp only [extract_rest_endpoints, List.mem_flatMap, List.mem_filterMap] at hep
    obtain ⟨m, hm, mapping, hmap, hsome⟩ := hep
    refine ⟨m, hm, ?_⟩
    split at hsome
    · cases hsome
      simp [Details.path?, spec_collapse_and_normalize]
    · cases hsome
  · decide

/-- Claim C4 witness: the `/api/` + `/items` controller's emitted entry. -/
theorem rest_full_path_concatenation_witness :
    ∃ m ∈ itemControllerClass.methods,
      itemControllerEntry.details.path? =
        some (spec_collapse_and_normalize
          (extract_request_mapping itemControllerClass.annotations
            ++ extract_method_path m)) :=
  rest_full_path_concatenation.1 itemControllerClass "C.java" "com.shop"
    itemControllerEntry (by decide)

/-- Claim C5: present method-level security metadata wholly replaces the
class-level metadata and absent method-level metadata inherits it; a
method with no security marker under a class-level `@Secured({"ADMIN"})`
inherits `roles = ["ADMIN"]`, and a method-level `@PermitAll` (which
resolves to present metadata with `requires_auth = false`) overrides the
class-level requirement with no merge. -/
theorem method_security_wholly_replaces_class_security :
    (∀ (ms : SecurityInfo) (cs : Option SecurityInfo),
        resolve_security (some ms) cs = some ms)
    ∧ (∀ cs : Option SecurityInfo, resolve_security Option.none cs = cs)
    ∧ resolve_security (extract_security_annotations [])
        (extract_security_annotations [securedAdminMarker])
        = some { type := some "Secured", requires_auth := some true,
                 roles := some ["ADMIN"] }
    ∧ resolve_security (extract_security_annotations [permitAllMarker])
        (extract_security_annotations [securedAdminMarker])
        = some { type := some "PermitAll", requires_auth := some false } := by
  exact ⟨fun _ _ => rfl, fun _ => rfl, by decide, by decide⟩

/-- Claim C6, counterexample: a bare array literal
(`@KafkaListener({"t1", "t2"})`) does not resolve to the flattened list
of its literal members — it falls through every block and resolves to the
not-found empty string. -/
theorem annotation_param_bare_array_cex :
    extract_annotation_param kafkaBareArrayAnnotations "KafkaListener" "topics" = ""
    ∧ join_literal_values [.lit "\"t1\"", .lit "\"t2\""] = "t1, t2"
    ∧ ("" : String) ≠ "t1, t2" := by
  refine ⟨by decide, by decide, by decide⟩

/-- Claim C6 as amended: the resolver tries, in order, a bare literal
attached directly; a list of explicit name=value pairs matched by name,
where a matched literal returns and a matched array flattens to a
comma-joined string; then the wrapped-shape fallbacks — while a bare
array literal of values is an unsupported shape that contributes nothing
(the scan moves on, ending at the not-found empty string), and the
resolver, a total function, never raises. -/
theorem annotation_param_resolution_order :
    (∀ (name p s : String) (rest : List Annotation),
        extract_annotation_param (⟨name, .expr (.lit s)⟩ :: rest) name p
          = strip_quotes s)
    ∧ (∀ (name p s : String) (ps : List (String × AnnoValue))
          (rest : List Annotation),
        extract_annotation_param (⟨name, .pairs ((p, .lit s) :: ps)⟩ :: rest) name p
          = strip_quotes s)
    ∧ (∀ (name p : String) (vs : List AnnoValue) (ps : List (String × AnnoValue))
          (rest : List Annotation),
        extract_annotation_param (⟨name, .pairs ((p, .arr vs) :: ps)⟩ :: rest) name p
          = join_literal_values vs)
    ∧ (∀ (name p : String) (vs : List AnnoValue) (rest : List Annotation),
        (∀ v ∈ vs, ∃ s, v = .lit s) →
        extract_annotation_param (⟨name, .expr (.arr vs)⟩ :: rest) name p
          = extract_annotation_param rest name p) := by
  refine ⟨?_, ?_, ?_, ?_⟩
  · intro name p s rest
    simp [extract_annotation_param, annotation_param_of_element,
          annotation_param_block1]
  · intro name p s ps rest
    simp [extract_annotation_param, annotation_param_of_element,
          annotation_param_block1, annotation_param_block2, first_some]
  · intro name p vs ps rest
    simp [extract_annotation_param, annotation_param_of_element,
          annotation_param_block1, annotation_param_block2, first_some]
  · intro name p vs rest hlits
    simp [extract_annotation_param, annotation_param_of_element,
          annotation_param_block1, annotation_param_block2,
          annotation_param_block3_all_literals p vs hlits,
          annotation_param_block4]

/-- Claim C6 witness: the amended behaviour at the concrete bare array
literal. -/
theorem annotation_param_resolution_order_witness :
    extract_annotation_param kafkaBareArrayAnnotations "KafkaListener" "topics"
      = extract_annotation_param [] "KafkaListener" "topics" :=
  annotation_param_resolution_order.2.2.2 "KafkaListener" "topics"
    [.lit "\"t1\"", .lit "\"t2\""] []
    (by intro v hv; simp at hv; rcases hv with h | h <;> exact ⟨_, h⟩)

/-- Claim C7 (code bug on the array part): simple names pass through,
qualified chains collapse to their terminal segment, generics render as
`Outer<Inner1, Inner2>` recursively and an absent type yields `"void"`,
but a dimensioned type drops its dimensions — `int[]` (name `int`, one
dimension) renders as `"int"`, not `"int[]"`, because every node carrying
a name returns before the dimension-appending branch, which is
unreachable; indeed the rendering never depends on the dimension count. -/
theorem get_type_string_drops_dimensions :
    get_type_string (.mk "int" Option.none [] 1) = "int"
    ∧ ("int" : String) ≠ "int[]"
    ∧ get_type_string_top .null = "void"
    ∧ get_type_string (.mk "CustomerRequest" Option.none [] 0) = "CustomerRequest"
    ∧ get_type_string
        (.mk "java" (some (.mk "math" (some (.mk "BigDecimal" Option.none [] 0)) [] 0)) [] 0)
        = "BigDecimal"
    ∧ get_type_string
        (.mk "Map" Option.none
          [some (.mk "String" Option.none [] 0), some (.mk "Integer" Option.none [] 0)] 0)
        = "Map<String, Integer>"
    ∧ (∀ (n : String) (st : Option TypeRef) (args : List (Option TypeRef)) (d d' : Nat),
        get_type_string (.mk n st args d) = get_type_string (.mk n st args d')) := by
  refine ⟨by decide, by decide, rfl, by decide, by decide, by decide, ?_⟩
  intro n st args d d'
  simp [get_type_string]

/-- Claim C8: a successful schema resolution is cached, and a repeated
request for the same type name returns the identical schema — same field
list — from the cache, leaving the cache unchanged and independent of
whatever the disk then holds. -/
theorem extract_schema_cache_idempotent
    (d1 d2 : String → Option ModelSchema) (st st' : SchemaCache)
    (n : String) (s : ModelSchema)
    (h : extract_schema d1 st n = (some s, st')) :
    extract_schema d2 st' n = (some s, st')
    ∧ (extract_schema d2 st' n).1.map ModelSchema.fields = some s.fields := by
  have hmain : extract_schema d2 st' n = (some s, st') := by
    simp only [extract_schema] at h ⊢
    cases hc : cache_lookup st.schemas (last_segment n) with
    | some s0 =>
      rw [hc] at h
      injection h with h1 h2
      injection h1 with h1
      subst h1; subst h2
      rw [hc]
    | none =>
      rw [hc] at h
      cases hd : d1 (last_segment n) with
      | none => rw [hd] at h; cases h
      | some sch =>
        rw [hd] at h
        injection h with h1 h2
        injection h1 with h1
        subst h1; subst h2
        simp [cache_lookup]
  exact ⟨hmain, by simp [hmain]⟩

/-- Claim C8 witness: resolving `Order` once caches it; a second request
after the backing file disappears still returns the cached schema with
the identical field list. -/
theorem extract_schema_cache_idempotent_witness :
    extract_schema emptyDisk ⟨[("Order", orderSchemaEx)]⟩ "Order"
      = (some orderSchemaEx, ⟨[("Order", orderSchemaEx)]⟩)
    ∧ (extract_schema emptyDisk ⟨[("Order", orderSchemaEx)]⟩ "Order").1.map
        ModelSchema.fields = some orderSchemaEx.fields :=
  extract_schema_cache_idempotent orderDisk emptyDisk ⟨[]⟩
    ⟨[("Order", orderSchemaEx)]⟩ "Order" orderSchemaEx (by decide)

/-- Claim C9: a field schema's `required` flag is true exactly when some
annotation name of its declaration lies in the required-implying set
`{NotNull, NotEmpty, NotBlank, NonNull}`, and its `validations` list is
precisely the recognized validation annotations, formatted verbatim in
order, which therefore never touch the flag. -/
theorem field_required_iff_required_tag (fd : FieldDecl) (fs : FieldSchema)
    (h : fs ∈ extract_field_schema fd) :
    (fs.required = true ↔ ∃ a ∈ fd.annotations, a.name ∈ required_annotations)
    ∧ fs.validations
        = (fd.annotations.filter fun a =>
            validation_annotations.contains a.name).map format_annotation_text := by
  simp only [extract_field_schema, List.mem_map] at h
  obtain ⟨dname, hd, rfl⟩ := h
  have hbase_req : (field_schema_base fd dname).required = false := by
    simp only [field_schema_base]
    split
    · split <;> rfl
    · rfl
  have hbase_val : (field_schema_base fd dname).validations = [] := by
    simp only [field_schema_base]
    split
    · split <;> rfl
    · rfl
  constructor
  · rw [foldl_field_step_required, hbase_req, Bool.false_or, List.any_eq_true]
    constructor
    · rintro ⟨a, ha, hc⟩
      exact ⟨a, ha, by simpa using hc⟩
    · rintro ⟨a, ha, hc⟩
      exact ⟨a, ha, by simpa using hc⟩
  · rw [foldl_field_step_validations, hbase_val, List.nil_append]

/-- Claim C9 witness: the `@NotNull @Size(min=1, max=5) BigDecimal
amount;` field is required and carries both formatted tags. -/
theorem field_required_iff_required_tag_witness :
    (amountFieldSchema.required = true
      ↔ ∃ a ∈ amountFieldDecl.annotations, a.name ∈ required_annotations)
    ∧ amountFieldSchema.validations
        = (amountFieldDecl.annotations.filter fun a =>
            validation_annotations.contains a.name).map format_annotation_text :=
  field_required_iff_required_tag amountFieldDecl amountFieldSchema (by decide)

/-- Claim C10: the schema cache is keyed by the terminal simple segment
of the requested name alone — after any successful resolution, any later
request whose simple segment agrees returns the very schema cached by the
first, whatever package prefix it carries and whatever the disk then
holds. -/
theorem schema_cache_keyed_by_simple_name
    (d1 d2 : String → Option ModelSchema) (st st' : SchemaCache)
    (n1 n2 : String) (s : ModelSchema)
    (hseg : last_segment n1 = last_segment n2)
    (h : extract_schema d1 st n1 = (some s, st')) :
    (extract_schema d2 st' n2).1 = some s := by
  simp only [extract_schema] at h ⊢
  rw [← hseg]
  cases hc : cache_lookup st.schemas (last_segment n1) with
  | some s0 =>
    rw [hc] at h
    injection h with h1 h2
    injection h1 with h1
    subst h1; subst h2
    rw [hc]
  | none =>
    rw [hc] at h
    cases hd : d1 (last_segment n1) with
    | none => rw [hd] at h; cases h
    | some sch =>
      rw [hd] at h
      injection h with h1 h2
      injection h1 with h1
      subst h1; subst h2
      simp [cache_lookup]

/-- Claim C10 witness: `com.a.Order` resolves and is cached under
`Order`; the later request `com.b.Order` — different package, empty disk —
returns the same cached schema. -/
theorem schema_cache_keyed_by_simple_name_witness :
    (extract_schema emptyDisk ⟨[("Order", orderSchemaEx)]⟩ "com.b.Order").1
      = some orderSchemaEx :=
  schema_cache_keyed_by_simple_name orderDisk emptyDisk ⟨[]⟩
    ⟨[("Order", orderSchemaEx)]⟩ "com.a.Order" "com.b.Order" orderSchemaEx
    (by decide) (by decide)

end JavaTestGen
